import Mathlib

/-!
Verification of the carousel/slider module of `src/globals.js`
(the `Slider` object, lines 677-747).

The slider keeps, per instance, a closure state consisting of
`current` (an integer index), `total` (the fixed slide count), the track
element's `style.transform` string, the `is-active` class on each
indicator dot, and the `aria-hidden` / `inert` attributes on each slide.
All mutation goes through the closure `goTo`:

    const goTo = (index) => {
      current = (index + total) % total;
      track.style.transform = `translateX(-` + current * 100 + `%)`;
      dots.forEach((d, i) => d.classList.toggle(`is-active`, i === current));
      slides.forEach((s, i) => {
        s.setAttribute(`aria-hidden`, i !== current);
        s.inert = i !== current;
      });
    };

JavaScript's `%` on integers is the truncated remainder (sign of the
dividend), which is `Int.tmod` in Lean; note that the source computes
`(index + total) % total`, adding `total` only once before the remainder.
-/

namespace Slider

/-- The two assistive-technology flags the source writes on each slide
element in `goTo`: the `aria-hidden` attribute and the `inert` property. -/
structure SlideFlags where
  ariaHidden : Bool
  inert : Bool
deriving DecidableEq, Repr

/-- The per-instance closure state of `initSlider`: `current` and `total`
(closure variables), plus the rendered DOM state that `goTo` writes:
the track's transform string, the `is-active` class of each dot in the
`dots` collection, and the flags of each slide in the `slides` collection. -/
structure SliderState where
  current : Int
  total : Nat
  trackTransform : String
  dotsActive : List Bool
  slides : List SlideFlags
deriving DecidableEq, Repr

/-- The part of the markup that `initSlider` inspects: whether a
`.slider__track` element exists, how many `.slider__slide` elements there
are, and whether a `.slider__dots` container exists.  (The optional
prev/next buttons and the `data-interval` attribute only decide which
event sources exist; they do not change the state shape.) -/
structure SliderConfig where
  hasTrack : Bool
  numSlides : Nat
  hasDotsContainer : Bool
deriving DecidableEq, Repr

/-- `goTo(index)` from `initSlider` (globals.js lines 707-715):
`current = (index + total) % total` with JavaScript's truncated remainder
(`Int.tmod`); the track transform is the template string
`translateX(-` ++ `current * 100` ++ `%)`; dot `i` gets the `is-active`
class exactly when `i === current`; slide `i` gets `aria-hidden` and
`inert` exactly when `i !== current`. -/
def goTo (s : SliderState) (index : Int) : SliderState :=
  let current := (index + (s.total : Int)).tmod (s.total : Int)
  { s with
    current := current
    trackTransform := "translateX(-" ++ toString (current * 100) ++ "%)"
    dotsActive := (List.range s.dotsActive.length).map
      (fun (i : Nat) => decide ((i : Int) = current))
    slides := (List.range s.slides.length).map
      (fun (i : Nat) => ⟨decide ((i : Int) ≠ current), decide ((i : Int) ≠ current)⟩) }

/-- The `next` operation of the spec: the body of the next-button, timer
and ArrowRight handlers, `goTo(current + 1)`. -/
def next (s : SliderState) : SliderState :=
  goTo s (s.current + 1)

/-- The `previous` operation of the spec: the body of the prev-button and
ArrowLeft handlers, `goTo(current - 1)`. -/
def previous (s : SliderState) : SliderState :=
  goTo s (s.current - 1)

/-- `initSlider(slider)` (globals.js lines 682-746): returns without doing
anything when the track is absent or the slide list is empty; otherwise
sets `current = 0`, `total = slides.length`, creates one dot per slide when
the dots container exists (none carries `is-active` at creation), attaches
the handlers, and finally renders via `goTo(0)`.  `none` models the silent
no-op: no state exists for that instance. -/
def initSlider (cfg : SliderConfig) : Option SliderState :=
  if cfg.hasTrack = false ∨ cfg.numSlides = 0 then none
  else
    let total := cfg.numSlides
    let s0 : SliderState :=
      { current := 0
        total := total
        trackTransform := ""
        dotsActive := List.replicate (if cfg.hasDotsContainer then total else 0) false
        slides := List.replicate total ⟨false, false⟩ }
    some (goTo s0 0)

/-- `Slider.init()` (globals.js lines 678-680): initializes every
`.slider` element on the page, each instance independently. -/
def init (sliders : List SliderConfig) : List (Option SliderState) :=
  sliders.map initSlider

/-- One input event on an initialized slider.  `touch start end` models a
complete gesture: the `touchstart` handler records `startX` (a closure
variable that does not touch the slider state) and the `touchend` handler
reads it. -/
inductive Ev where
  | nextBtn : Ev
  | prevBtn : Ev
  | dot : Nat → Ev
  | timer : Ev
  | touch : Int → Int → Ev
  | key : String → Ev
deriving DecidableEq, Repr

/-- The event handlers attached by `initSlider` (globals.js lines
700, 717-718, 723, 726, 732-736, 740-743).  The next button, the autoplay
timer and the ArrowRight key all run `goTo(current + 1)`; the prev button
and ArrowLeft run `goTo(current - 1)`; the dot built for slide `k` runs
`goTo(k)`; `touchend` computes `dx = clientX - startX` and navigates only
when `Math.abs(dx) > 50`, to `current + 1` when `dx < 0` and to
`current - 1` otherwise.  (The source's keydown handler is two independent
`if` statements; a key cannot equal both strings, so this chain is
equivalent.) -/
def step (s : SliderState) (e : Ev) : SliderState :=
  match e with
  | .nextBtn => goTo s (s.current + 1)
  | .prevBtn => goTo s (s.current - 1)
  | .dot k => goTo s (k : Int)
  | .timer => goTo s (s.current + 1)
  | .touch startX endX =>
      let dx := endX - startX
      if 50 < |dx| then goTo s (if dx < 0 then s.current + 1 else s.current - 1)
      else s
  | .key k =>
      if k = "ArrowRight" then goTo s (s.current + 1)
      else if k = "ArrowLeft" then goTo s (s.current - 1)
      else s

/-- States reachable from `s0` by any sequence of input events.  (Dot
events with `k ≥ total` cannot occur in the real DOM, because only `total`
dots are built; allowing them here only enlarges the reachable set, so
universal statements below are, if anything, stronger.) -/
inductive ReachableFrom (s0 : SliderState) : SliderState → Prop where
  | refl : ReachableFrom s0 s0
  | tick (s : SliderState) (e : Ev) : ReachableFrom s0 s → ReachableFrom s0 (step s e)

/-- A state of an initialized carousel: reachable by events from the state
`initSlider` produced. -/
def Reachable (cfg : SliderConfig) (s : SliderState) : Prop :=
  ∃ s0, initSlider cfg = some s0 ∧ ReachableFrom s0 s

/-- Well-formedness of a slider state: at least one slide, `current` in
range, and one `slides` entry per slide. -/
def Good (s : SliderState) : Prop :=
  0 < s.total ∧ 0 ≤ s.current ∧ s.current < (s.total : Int) ∧
    s.slides.length = s.total

/-- A concrete 3-slide instance with a dots container, used to instantiate
the theorems below. -/
def cfg3 : SliderConfig :=
  { hasTrack := true, numSlides := 3, hasDotsContainer := true }

/-- The state `initSlider` produces for `cfg3`. -/
def sInit : SliderState :=
  goTo
    { current := 0
      total := 3
      trackTransform := ""
      dotsActive := List.replicate 3 false
      slides := List.replicate 3 ⟨false, false⟩ } 0

theorem initSlider_cfg3 : initSlider cfg3 = some sInit := rfl

theorem sInit_eval :
    sInit = { current := 0, total := 3, trackTransform := "translateX(-0%)",
              dotsActive := [true, false, false],
              slides := [⟨false, false⟩, ⟨true, true⟩, ⟨true, true⟩] } := by
  decide

/-! ### Arithmetic helpers about the truncated remainder -/

theorem neg_lt_tmod (a : Int) {b : Int} (hb : 0 < b) : -b < a.tmod b := by
  rcases a with m | m
  · calc -b < 0 := by omega
      _ ≤ _ := Int.tmod_nonneg b (by exact Int.ofNat_nonneg m)
  · rcases b with n | n
    · have hn : 0 < n := by simpa using hb
      have hdef : (Int.negSucc m).tmod (Int.ofNat n) = -Int.ofNat (m.succ % n) := rfl
      rw [hdef]
      have h2 : m.succ % n < n := Nat.mod_lt _ hn
      simp only [Int.ofNat_eq_coe]
      omega
    · exact absurd hb (by simp)

theorem tmod_emod (a b : Int) : a.tmod b % b = a % b := by
  rw [Int.tmod_def]
  have h : a - b * a.tdiv b = a + b * (-a.tdiv b) := by ring
  rw [h, Int.add_mul_emod_self_left]

theorem emod_add_left_cancel (a c b : Int) : (a % b + c) % b = (a + c) % b := by
  conv_rhs => rw [← Int.emod_add_ediv a b]
  rw [add_right_comm, Int.add_mul_emod_self_left]

/-! ### Shape and current-index lemmas about goTo and step -/

theorem goTo_total (s : SliderState) (i : Int) : (goTo s i).total = s.total := rfl

theorem goTo_numDots (s : SliderState) (i : Int) :
    (goTo s i).dotsActive.length = s.dotsActive.length := by
  simp only [goTo, List.length_map, List.length_range]

theorem goTo_numSlides (s : SliderState) (i : Int) :
    (goTo s i).slides.length = s.slides.length := by
  simp only [goTo, List.length_map, List.length_range]

theorem goTo_current (s : SliderState) (i : Int) (h : 0 ≤ i + (s.total : Int)) :
    (goTo s i).current = i % (s.total : Int) := by
  show (i + (s.total : Int)).tmod (s.total : Int) = i % (s.total : Int)
  rw [Int.tmod_eq_emod h (by positivity)]
  have h2 := Int.add_mul_emod_self_left i (s.total : Int) 1
  rwa [mul_one] at h2

theorem goTo_current_of_lt (s : SliderState) (k : Nat) (hk : k < s.total) :
    (goTo s (k : Int)).current = (k : Int) := by
  rw [goTo_current s _ (by positivity)]
  exact Int.emod_eq_of_lt (by positivity) (by exact_mod_cast hk)

theorem goTo_good (s : SliderState) (i : Int) (hg : Good s)
    (hi : 0 ≤ i + (s.total : Int)) : Good (goTo s i) := by
  obtain ⟨h1, _h2, _h3, h4⟩ := hg
  have ht : (0 : Int) < (s.total : Int) := by exact_mod_cast h1
  refine ⟨h1, ?_, ?_, ?_⟩
  · rw [goTo_current s i hi]
    exact Int.emod_nonneg i ht.ne'
  · rw [goTo_current s i hi, goTo_total]
    exact Int.emod_lt_of_pos i ht
  · rw [goTo_numSlides, goTo_total, h4]

theorem step_cases (s : SliderState) (e : Ev) :
    (∃ i, step s e = goTo s i) ∨ step s e = s := by
  cases e with
  | nextBtn => exact Or.inl ⟨s.current + 1, rfl⟩
  | prevBtn => exact Or.inl ⟨s.current - 1, rfl⟩
  | dot k => exact Or.inl ⟨(k : Int), rfl⟩
  | timer => exact Or.inl ⟨s.current + 1, rfl⟩
  | touch startX endX =>
      simp only [step]
      split
      · exact Or.inl ⟨_, rfl⟩
      · exact Or.inr rfl
  | key k =>
      simp only [step]
      split
      · exact Or.inl ⟨_, rfl⟩
      · split
        · exact Or.inl ⟨_, rfl⟩
        · exact Or.inr rfl

theorem step_total (s : SliderState) (e : Ev) : (step s e).total = s.total := by
  rcases step_cases s e with ⟨i, h⟩ | h <;> rw [h]
  rfl

theorem step_numDots (s : SliderState) (e : Ev) :
    (step s e).dotsActive.length = s.dotsActive.length := by
  rcases step_cases s e with ⟨i, h⟩ | h <;> rw [h]
  exact goTo_numDots s i

theorem step_numSlides (s : SliderState) (e : Ev) :
    (step s e).slides.length = s.slides.length := by
  rcases step_cases s e with ⟨i, h⟩ | h <;> rw [h]
  exact goTo_numSlides s i

theorem step_good (s : SliderState) (e : Ev) (hg : Good s) : Good (step s e) := by
  have hc := hg.2.1
  have ht := hg.1
  have ht2 : (0 : Int) < (s.total : Int) := by exact_mod_cast ht
  cases e with
  | nextBtn => exact goTo_good s _ hg (by omega)
  | prevBtn => exact goTo_good s _ hg (by omega)
  | dot k => exact goTo_good s _ hg (by positivity)
  | timer => exact goTo_good s _ hg (by omega)
  | touch startX endX =>
      simp only [step]
      split
      · split
        · exact goTo_good s _ hg (by omega)
        · exact goTo_good s _ hg (by omega)
      · exact hg
  | key k =>
      simp only [step]
      split
      · exact goTo_good s _ hg (by omega)
      · split
        · exact goTo_good s _ hg (by omega)
        · exact hg

theorem initSlider_good (cfg : SliderConfig) (s0 : SliderState)
    (h : initSlider cfg = some s0) :
    Good s0 ∧ s0.total = cfg.numSlides ∧
      s0.dotsActive.length = (if cfg.hasDotsContainer then cfg.numSlides else 0) := by
  unfold initSlider at h
  split at h
  · exact absurd h (by simp)
  · rename_i hcond
    have hn : cfg.numSlides ≠ 0 := fun hz => hcond (Or.inr hz)
    obtain rfl : _ = s0 := Option.some_injective _ h
    have hpos : 0 < cfg.numSlides := Nat.pos_of_ne_zero hn
    have hbase : (0 : Int) < (cfg.numSlides : Int) := by exact_mod_cast hpos
    refine ⟨goTo_good _ 0 ⟨hpos, le_refl 0, hbase, by simp⟩ (by positivity), rfl, ?_⟩
    rw [goTo_numDots]
    simp

theorem reachableFrom_good {s0 s : SliderState} (h : ReachableFrom s0 s)
    (hg : Good s0) : Good s := by
  induction h with
  | refl => exact hg
  | tick t e _ ih => exact step_good t e ih

theorem reachableFrom_shape {s0 s : SliderState} (h : ReachableFrom s0 s) :
    s.total = s0.total ∧ s.dotsActive.length = s0.dotsActive.length ∧
      s.slides.length = s0.slides.length := by
  induction h with
  | refl => exact ⟨rfl, rfl, rfl⟩
  | tick t e _ ih =>
      exact ⟨(step_total t e).trans ih.1, (step_numDots t e).trans ih.2.1,
        (step_numSlides t e).trans ih.2.2⟩

theorem reachable_good {cfg : SliderConfig} {s : SliderState}
    (h : Reachable cfg s) : Good s := by
  obtain ⟨s0, h0, hr⟩ := h
  exact reachableFrom_good hr (initSlider_good cfg s0 h0).1

theorem reachable_shape {cfg : SliderConfig} {s : SliderState}
    (h : Reachable cfg s) :
    s.total = cfg.numSlides ∧
      s.dotsActive.length = (if cfg.hasDotsContainer then cfg.numSlides else 0) ∧
      s.slides.length = cfg.numSlides := by
  obtain ⟨s0, h0, hr⟩ := h
  obtain ⟨hg0, htot, hdots⟩ := initSlider_good cfg s0 h0
  obtain ⟨h1, h2, h3⟩ := reachableFrom_shape hr
  exact ⟨h1.trans htot, h2.trans hdots, h3.trans (hg0.2.2.2.trans htot)⟩

theorem getD_range_map {α : Type} (f : Nat → α) (n i : Nat) (h : i < n) (d : α) :
    ((List.range n).map f).getD i d = f i := by
  simp [List.getD_eq_getElem?_getD, List.getElem?_map, List.getElem?_range, h]

theorem goTo_congr (s t : SliderState) (k : Int) (h1 : s.total = t.total)
    (h2 : s.dotsActive.length = t.dotsActive.length)
    (h3 : s.slides.length = t.slides.length) : goTo s k = goTo t k := by
  simp only [goTo]
  rw [h1, h2, h3]

/-! ### Lemmas about the `next` operation -/

theorem next_total (s : SliderState) : (next s).total = s.total := rfl

theorem next_current (s : SliderState) (hg : Good s) :
    (next s).current = (s.current + 1) % (s.total : Int) := by
  have h1 := hg.2.1
  exact goTo_current s _ (by omega)

theorem next_good (s : SliderState) (hg : Good s) : Good (next s) := by
  have h1 := hg.2.1
  exact goTo_good s _ hg (by omega)

theorem next_iterate_current (n : Nat) :
    ∀ s : SliderState, Good s →
      (next^[n] s).current = (s.current + (n : Int)) % (s.total : Int) := by
  induction n with
  | zero =>
      intro s hg
      simp only [Function.iterate_zero, id_eq, Nat.cast_zero, add_zero]
      exact (Int.emod_eq_of_lt hg.2.1 hg.2.2.1).symm
  | succ n ih =>
      intro s hg
      rw [Function.iterate_succ_apply, ih (next s) (next_good s hg),
        next_current s hg, next_total, emod_add_left_cancel]
      congr 1
      push_cast
      ring

/-! ### The claims -/

/-- C1 (counterexample): the claim fails as stated for indices below
`-total`.  On the 3-slide carousel, `goTo(-4)` runs
`current = (-4 + 3) % 3`, and JavaScript's `%` (truncated remainder) gives
`-1`, while the claimed formula `((-4 % 3) + 3) % 3` gives `2`. -/
theorem C1_counterexample :
    (initSlider cfg3).map (fun s0 => (goTo s0 (-4)).current) = some (-1) ∧
    ((-4 : Int).tmod 3 + 3).tmod 3 = 2 ∧ ((-1 : Int) ≠ 2) := by
  decide

/-- C1 (amended): for every integer index `i` with `-total ≤ i` — which
covers every call the module itself makes — `goTo(i)` sets `current` to
`((i % total) + total) % total`, wrapping into `[0, total)`.  For
`i < -total` the code instead yields the negative truncated remainder
`(i + total) % total`. -/
theorem C1_goTo_wraps (s : SliderState) (i : Int) (h1 : 0 < s.total)
    (h2 : -(s.total : Int) ≤ i) :
    (goTo s i).current
        = (i.tmod (s.total : Int) + (s.total : Int)).tmod (s.total : Int) ∧
    0 ≤ (goTo s i).current ∧ (goTo s i).current < (s.total : Int) := by
  have ht : (0 : Int) < (s.total : Int) := by exact_mod_cast h1
  have hcur := goTo_current s i (by omega)
  have hr : -(s.total : Int) < i.tmod (s.total : Int) := neg_lt_tmod i ht
  refine ⟨?_, ?_, ?_⟩
  · rw [hcur, Int.tmod_eq_emod (by omega) ht.le]
    have e1 := Int.add_mul_emod_self_left (i.tmod (s.total : Int)) (s.total : Int) 1
    rw [mul_one] at e1
    rw [e1, tmod_emod]
  · rw [hcur]
    exact Int.emod_nonneg i ht.ne'
  · rw [hcur]
    exact Int.emod_lt_of_pos i ht

theorem C1_goTo_wraps_witness :
    (goTo sInit (-1)).current
        = ((-1 : Int).tmod (sInit.total : Int) + (sInit.total : Int)).tmod
            (sInit.total : Int) ∧
    0 ≤ (goTo sInit (-1)).current ∧ (goTo sInit (-1)).current < (sInit.total : Int) :=
  C1_goTo_wraps sInit (-1) (by decide) (by decide)

/-- C2: on every initialized carousel, `0 ≤ current < total` holds in
every state reachable by any sequence of button, dot, touch, keyboard and
timer events, and `current = 0` immediately after initialization. -/
theorem C2_current_invariant (cfg : SliderConfig) (s : SliderState)
    (h : Reachable cfg s) :
    (0 ≤ s.current ∧ s.current < (s.total : Int)) ∧
    (∀ s0, initSlider cfg = some s0 → s0.current = 0) := by
  have hg := reachable_good h
  refine ⟨⟨hg.2.1, hg.2.2.1⟩, ?_⟩
  intro s0 h0
  unfold initSlider at h0
  split at h0
  · exact absurd h0 (by simp)
  · obtain rfl := Option.some_injective _ h0
    rw [goTo_current _ 0 (by positivity), Int.zero_emod]

theorem C2_current_invariant_witness :
    (0 ≤ sInit.current ∧ sInit.current < (sInit.total : Int)) ∧
    (∀ s0, initSlider cfg3 = some s0 → s0.current = 0) :=
  C2_current_invariant cfg3 sInit ⟨sInit, initSlider_cfg3, ReachableFrom.refl⟩

/-- C3 (counterexample): freshly initialized, the track transform is the
string `translateX(-0%)` (the template inserts a literal minus sign before
`current * 100 = 0`), not `translateX(0%)` as claimed. -/
theorem C3_counterexample :
    (initSlider cfg3).map SliderState.trackTransform = some "translateX(-0%)" ∧
    "translateX(-0%)" ≠ "translateX(0%)" := by
  decide

/-- C3 (amended): immediately after a fresh initialize of a 3-slide
carousel, `current = 0`, the track transform is the string
`translateX(-0%)` (a zero offset, rendered identically to
`translateX(0%)`), and slide 0 is visible; in general, navigating to slide
`k` sets the transform to `translateX(-(100 * k)%)`. -/
theorem C3_initial_render (s : SliderState) (k : Nat) (hk : k < s.total) :
    ((initSlider cfg3).map SliderState.current = some 0 ∧
     (initSlider cfg3).map SliderState.trackTransform = some "translateX(-0%)" ∧
     (initSlider cfg3).map (fun t => (t.slides.getD 0 ⟨true, true⟩).ariaHidden)
        = some false) ∧
    (goTo s (k : Int)).trackTransform
        = "translateX(-" ++ toString ((k : Int) * 100) ++ "%)" := by
  refine ⟨by decide, ?_⟩
  show "translateX(-" ++ toString ((goTo s (k : Int)).current * 100) ++ "%)" = _
  rw [goTo_current_of_lt s k hk]

theorem C3_initial_render_witness :
    ((initSlider cfg3).map SliderState.current = some 0 ∧
     (initSlider cfg3).map SliderState.trackTransform = some "translateX(-0%)" ∧
     (initSlider cfg3).map (fun t => (t.slides.getD 0 ⟨true, true⟩).ariaHidden)
        = some false) ∧
    (goTo sInit ((1 : Nat) : Int)).trackTransform
        = "translateX(-" ++ toString (((1 : Nat) : Int) * 100) ++ "%)" :=
  C3_initial_render sInit 1 (by decide)

/-- C4: in every reachable state of an initialized carousel, applying
`next` exactly `total` times returns `current` to its original value. -/
theorem C4_next_closure (cfg : SliderConfig) (s : SliderState)
    (h : Reachable cfg s) : (next^[s.total] s).current = s.current := by
  have hg := reachable_good h
  rw [next_iterate_current s.total s hg]
  have e := Int.add_mul_emod_self_left s.current (s.total : Int) 1
  rw [mul_one] at e
  rw [e, Int.emod_eq_of_lt hg.2.1 hg.2.2.1]

theorem C4_next_closure_witness :
    (next^[sInit.total] sInit).current = sInit.current :=
  C4_next_closure cfg3 sInit ⟨sInit, initSlider_cfg3, ReachableFrom.refl⟩

/-- C5: `next` is `goTo(current + 1)` and `previous` is
`goTo(current - 1)`; the next button and the ArrowRight key run exactly
`next`, the prev button and the ArrowLeft key exactly `previous`; and
`previous` from `current = 0` with 3 slides gives `current = 2`. -/
theorem C5_nav_equivalences (s : SliderState) :
    step s Ev.nextBtn = next s ∧
    step s Ev.prevBtn = previous s ∧
    next s = goTo s (s.current + 1) ∧
    previous s = goTo s (s.current - 1) ∧
    step s (Ev.key "ArrowRight") = next s ∧
    step s (Ev.key "ArrowLeft") = previous s ∧
    (s.current = 0 → s.total = 3 → (previous s).current = 2) := by
  refine ⟨rfl, rfl, rfl, rfl, rfl, rfl, ?_⟩
  intro h0 h3
  show (s.current - 1 + (s.total : Int)).tmod (s.total : Int) = 2
  rw [h0, h3]
  decide

theorem C5_nav_equivalences_witness :
    step sInit Ev.nextBtn = next sInit ∧
    step sInit Ev.prevBtn = previous sInit ∧
    next sInit = goTo sInit (sInit.current + 1) ∧
    previous sInit = goTo sInit (sInit.current - 1) ∧
    step sInit (Ev.key "ArrowRight") = next sInit ∧
    step sInit (Ev.key "ArrowLeft") = previous sInit ∧
    (previous sInit).current = 2 := by
  have h := C5_nav_equivalences sInit
  exact ⟨h.1, h.2.1, h.2.2.1, h.2.2.2.1, h.2.2.2.2.1, h.2.2.2.2.2.1,
    h.2.2.2.2.2.2 (by decide) (by decide)⟩

/-- C6: in any reachable state, after `goTo(k)` with `k < total`, slide
`i` has `aria-hidden` cleared and `inert` cleared exactly when `i = k`:
exactly the slide at position `k` is visible to assistive technology, all
others are hidden and inert. -/
theorem C6_slide_visibility (cfg : SliderConfig) (s : SliderState)
    (h : Reachable cfg s) (k i : Nat) (hk : k < s.total) (hi : i < s.total) :
    (((goTo s (k : Int)).slides.getD i ⟨true, true⟩).ariaHidden = false ↔ i = k) ∧
    (((goTo s (k : Int)).slides.getD i ⟨true, true⟩).inert = false ↔ i = k) := by
  have hlen : s.slides.length = s.total := (reachable_good h).2.2.2
  have hcur := goTo_current_of_lt s k hk
  have hsl : (goTo s (k : Int)).slides =
      (List.range s.slides.length).map
        (fun (j : Nat) =>
          (⟨decide ((j : Int) ≠ (goTo s (k : Int)).current),
            decide ((j : Int) ≠ (goTo s (k : Int)).current)⟩ : SlideFlags)) := rfl
  rw [hsl, hcur, getD_range_map _ _ _ (by omega)]
  constructor <;> simp

theorem C6_slide_visibility_witness :
    (((goTo sInit ((1 : Nat) : Int)).slides.getD 0 ⟨true, true⟩).ariaHidden = false
        ↔ (0 : Nat) = 1) ∧
    (((goTo sInit ((1 : Nat) : Int)).slides.getD 0 ⟨true, true⟩).inert = false
        ↔ (0 : Nat) = 1) :=
  C6_slide_visibility cfg3 sInit ⟨sInit, initSlider_cfg3, ReachableFrom.refl⟩
    1 0 (by decide) (by decide)

/-- C7: on a carousel initialized with a dots container, there is one dot
per slide, and in any reachable state, after `goTo(k)` with `k < total`,
dot `i` carries the `is-active` class exactly when `i = k`. -/
theorem C7_dot_active (cfg : SliderConfig) (s : SliderState)
    (h : Reachable cfg s) (hd : cfg.hasDotsContainer = true)
    (k i : Nat) (hk : k < s.total) (hi : i < s.total) :
    s.dotsActive.length = s.total ∧
    ((goTo s (k : Int)).dotsActive.getD i false = true ↔ i = k) := by
  obtain ⟨htot, hdots, _⟩ := reachable_shape h
  have hlen : s.dotsActive.length = s.total := by simp [hdots, hd, htot]
  have hcur := goTo_current_of_lt s k hk
  have hda : (goTo s (k : Int)).dotsActive =
      (List.range s.dotsActive.length).map
        (fun (j : Nat) => decide ((j : Int) = (goTo s (k : Int)).current)) := rfl
  refine ⟨hlen, ?_⟩
  rw [hda, hcur, getD_range_map _ _ _ (by omega)]
  simp

theorem C7_dot_active_witness :
    sInit.dotsActive.length = sInit.total ∧
    ((goTo sInit ((1 : Nat) : Int)).dotsActive.getD 0 false = true ↔ (0 : Nat) = 1) :=
  C7_dot_active cfg3 sInit ⟨sInit, initSlider_cfg3, ReachableFrom.refl⟩
    rfl 1 0 (by decide) (by decide)

/-- C8: a touch gesture navigates exactly once — `next` on a leftward
swipe, `previous` on a rightward swipe — when the horizontal displacement
`endX - startX` exceeds 50 in absolute value, and leaves the state
untouched otherwise. -/
theorem C8_touch_threshold (s : SliderState) (startX endX : Int) :
    (50 < |endX - startX| → endX - startX < 0 →
        step s (Ev.touch startX endX) = next s) ∧
    (50 < |endX - startX| → 0 < endX - startX →
        step s (Ev.touch startX endX) = previous s) ∧
    (|endX - startX| ≤ 50 → step s (Ev.touch startX endX) = s) := by
  refine ⟨?_, ?_, ?_⟩
  · intro h1 h2
    simp only [step]
    rw [if_pos h1, if_pos h2]
    rfl
  · intro h1 h2
    simp only [step]
    rw [if_pos h1, if_neg (by omega : ¬endX - startX < 0)]
    rfl
  · intro h1
    simp only [step]
    rw [if_neg (not_lt.mpr h1)]

theorem C8_touch_threshold_witness :
    step sInit (Ev.touch 51 0) = next sInit ∧
    step sInit (Ev.touch 0 49) = sInit :=
  ⟨(C8_touch_threshold sInit 51 0).1 (by decide) (by decide),
   (C8_touch_threshold sInit 0 49).2.2 (by decide)⟩

/-- C9: when the track is absent or the slide list is empty,
initialization of that instance is a silent no-op — it produces no state
at all — and on a page with many sliders every other instance is
initialized exactly as it would be alone. -/
theorem C9_init_silent_noop (cfg : SliderConfig)
    (h : cfg.hasTrack = false ∨ cfg.numSlides = 0) :
    initSlider cfg = none ∧
    ∀ pre post : List SliderConfig,
      init (pre ++ cfg :: post) = init pre ++ none :: init post := by
  have h0 : initSlider cfg = none := by
    unfold initSlider
    rw [if_pos h]
  refine ⟨h0, fun pre post => ?_⟩
  simp [init, h0]

theorem C9_init_silent_noop_witness :
    initSlider ⟨false, 3, true⟩ = none ∧
    ∀ pre post : List SliderConfig,
      init (pre ++ (⟨false, 3, true⟩ : SliderConfig) :: post)
        = init pre ++ none :: init post :=
  C9_init_silent_noop ⟨false, 3, true⟩ (Or.inl rfl)

/-- C10: for any two reachable states of the same initialized carousel,
`goTo(k)` produces the same state (same `current`, transform, dot classes
and slide visibility) regardless of the prior `current`, and `goTo(k)` is
idempotent. -/
theorem C10_goTo_history_independent (cfg : SliderConfig) (s t : SliderState)
    (hs : Reachable cfg s) (ht : Reachable cfg t) (k : Int) :
    goTo s k = goTo t k ∧ goTo (goTo s k) k = goTo s k := by
  obtain ⟨hs1, hs2, hs3⟩ := reachable_shape hs
  obtain ⟨ht1, ht2, ht3⟩ := reachable_shape ht
  constructor
  · exact goTo_congr s t k (hs1.trans ht1.symm) (hs2.trans ht2.symm)
      (hs3.trans ht3.symm)
  · exact goTo_congr (goTo s k) s k (goTo_total s k) (goTo_numDots s k)
      (goTo_numSlides s k)

theorem C10_goTo_history_independent_witness :
    goTo sInit 5 = goTo (step sInit Ev.nextBtn) 5 ∧
    goTo (goTo sInit 5) 5 = goTo sInit 5 :=
  C10_goTo_history_independent cfg3 sInit (step sInit Ev.nextBtn)
    ⟨sInit, initSlider_cfg3, ReachableFrom.refl⟩
    ⟨sInit, initSlider_cfg3, ReachableFrom.tick sInit Ev.nextBtn ReachableFrom.refl⟩ 5

end Slider
